import Mathlib

/-!
Shallow embedding of the buildship-fastapi backend (src/app) and proofs about
its authentication, API-key gateway, pagination and item CRUD logic.

Conventions of the embedding:
* Python strings are Lean `String`s; Python substring / prefix tests are
  executable helpers on `List Char` below.
* `datetime.utcnow()` is passed in explicitly as an integer timestamp `now`
  (seconds); `timedelta(minutes=m)` is `60 * m` seconds.
* Raising `HTTPException` is returning `Except.error` of an `HTTPError`.
* The database session is explicit state: a list of rows, threaded through
  and returned by every operation that can mutate it.
-/

/-- Python prefix test `hay.startswith(needle)`, on exploded strings. -/
def charsIsPrefixOf : List Char → List Char → Bool
  | [], _ => true
  | _ :: _, [] => false
  | a :: as, b :: bs => a == b && charsIsPrefixOf as bs

/-- Python substring test `needle in hay`, on exploded strings. -/
def charsIsInfixOf (needle : List Char) : List Char → Bool
  | [] => needle.isEmpty
  | c :: t => charsIsPrefixOf needle (c :: t) || charsIsInfixOf needle t

/-- Python `needle in hay` for strings. -/
def pyInStr (needle hay : String) : Bool :=
  charsIsInfixOf needle.data hay.data

/-- Python `s.startswith(p)`. -/
def pyStartsWith (s p : String) : Bool :=
  charsIsPrefixOf p.data s.data

/-- Python `s.lower()` (ASCII case folding suffices for the headers the
middleware inspects). -/
def pyLower (s : String) : String :=
  ⟨s.data.map Char.toLower⟩

/-- FastAPI `HTTPException` as raised by the application: status code, detail
message, and the extra response headers (`none` when the `headers` argument
is omitted, as for the 400/403/404/500 errors). -/
structure HTTPError where
  status_code : Nat
  detail : String
  headers : Option (List (String × String))
  deriving Repr, DecidableEq

/-- The fields of `app/config.py` `Settings` that the token layer reads, with
their default values from `config.py`. -/
structure AuthSettings where
  secret_key : String
  algorithm : String
  access_token_expire_minutes : Nat
  deriving Repr, DecidableEq

/-- The global `settings` instance with the `config.py` defaults. -/
def settings : AuthSettings :=
  { secret_key := "your-secret-key-change-in-production"
    algorithm := "HS256"
    access_token_expire_minutes := 30 }

/-- The JWT payload fields this application reads: the `sub` claim (absent
when the issuing dict had no `"sub"` key) and the `exp` claim. -/
structure JwtClaims where
  sub : Option String
  exp : Option Int
  deriving Repr, DecidableEq

/-- A token string as produced and consumed through `python-jose`: either a
well-formed JWT recording the secret and algorithm it was signed with plus
its payload, or a string that does not parse as a JWT at all. -/
inductive JwtToken where
  | signed (secret : String) (alg : String) (claims : JwtClaims)
  | malformed (raw : String)
  deriving Repr, DecidableEq

/-- `jose.JWTError` (of which `ExpiredSignatureError` is a subclass). -/
inductive JWTError where
  | error (msg : String)
  deriving Repr, DecidableEq

/-- `jose.jwt.encode(claims, key, algorithm)`. -/
def jwt.encode (claims : JwtClaims) (key : String) (algorithm : String) : JwtToken :=
  .signed key algorithm claims

/-- `jose.jwt.decode(token, key, algorithms)` at time `now`: fails on a
malformed token, on a key or algorithm mismatch, and on a present-and-passed
`exp` claim; otherwise returns the payload. -/
def jwt.decode (tok : JwtToken) (key : String) (algorithms : List String)
    (now : Int) : Except JWTError JwtClaims :=
  match tok with
  | .malformed _ => .error (.error "Not enough segments")
  | .signed s a c =>
    if s != key || !(algorithms.contains a) then
      .error (.error "Signature verification failed")
    else
      match c.exp with
      | some e => if e < now then .error (.error "Signature has expired") else .ok c
      | none => .ok c

/-- `app/auth.py` `create_access_token(data, expires_delta)`: copies the data,
overwrites `exp` with `now + expires_delta` (or `now` plus the configured
default TTL when `expires_delta` is `None`), and signs with the configured
secret and algorithm. -/
def create_access_token (now : Int) (data : JwtClaims)
    (expires_delta : Option Int) : JwtToken :=
  let expire : Int :=
    match expires_delta with
    | some d => now + d
    | none => now + 60 * (settings.access_token_expire_minutes : Int)
  jwt.encode { data with exp := some expire } settings.secret_key settings.algorithm

/-- `app/auth.py` `verify_token(token)`: `None` for a `None` token, a token
that fails `jwt.decode`, or a payload without a `sub` claim; otherwise the
`sub` claim. -/
def verify_token (now : Int) (token : Option JwtToken) : Option String :=
  match token with
  | none => none
  | some tok =>
    match jwt.decode tok settings.secret_key [settings.algorithm] now with
    | .error _ => none
    | .ok payload =>
      match payload.sub with
      | none => none
      | some username => some username

/-- Modelled from the spec: the password-hash primitive (passlib bcrypt) is
listed by the spec as an external collaborator and its code is not part of
this repository. A digest records the hashed password and the random salt;
verification succeeds exactly when the candidate re-hashes to the digest.
Digests that are not valid hash encodings are outside this model. -/
inductive Digest where
  | bcrypt (pw : String) (salt : Nat)
  deriving Repr, DecidableEq

/-- `app/auth.py` `verify_password`, delegating to the hasher model. -/
def verify_password (plain_password : String) (hashed_password : Digest) : Bool :=
  match hashed_password with
  | .bcrypt pw _ => plain_password == pw

/-- `app/auth.py` `get_password_hash`, with the salt drawn by the hasher made
explicit. -/
def get_password_hash (salt : Nat) (password : String) : Digest :=
  .bcrypt password salt

/-- Modelled from the spec: `app/models.py` is not present under `src/`; the
`User` identity record follows section 3 of the spec (unique username and
email, password hash, active and superuser flags) restricted to the fields
the code under `src/` reads. -/
structure UserRec where
  id : Nat
  username : String
  email : String
  hashed_password : Digest
  is_active : Bool
  is_superuser : Bool
  deriving Repr, DecidableEq

/-- The user table reachable through the request-scoped session. -/
abbrev UserDb := List UserRec

/-- `app/auth.py` `get_user(db, username)`: first row whose username
matches. -/
def get_user (db : UserDb) (username : String) : Option UserRec :=
  db.find? (fun u => u.username == username)

/-- `app/auth.py` `authenticate_user(db, username, password)`: `None` when
the user is missing or the password does not verify; the user otherwise.
The `is_active` flag is not consulted. -/
def authenticate_user (db : UserDb) (username password : String) : Option UserRec :=
  match get_user db username with
  | none => none
  | some user =>
    if verify_password password user.hashed_password = false then none
    else some user

/-- The single `credentials_exception` value `get_current_user` raises on
every failure path. -/
def credentials_exception : HTTPError :=
  { status_code := 401
    detail := "Could not validate credentials"
    headers := some [("WWW-Authenticate", "Bearer")] }

/-- `app/auth.py` `get_current_user(token, db)`: raises
`credentials_exception` when the token is `None`, when `verify_token` yields
no subject, or when no user matches the subject; otherwise the user. -/
def get_current_user (now : Int) (token : Option JwtToken) (db : UserDb) :
    Except HTTPError UserRec :=
  match token with
  | none => .error credentials_exception
  | some _ =>
    match verify_token now token with
    | none => .error credentials_exception
    | some username =>
      match get_user db username with
      | none => .error credentials_exception
      | some user => .ok user

/-- `app/auth.py` `get_current_active_user`: 400 "Inactive user" when the
resolved user is inactive. -/
def get_current_active_user (current_user : UserRec) : Except HTTPError UserRec :=
  if current_user.is_active = false then
    .error { status_code := 400, detail := "Inactive user", headers := none }
  else .ok current_user

/-- Python truthiness of the token string handed to the optional resolver:
`None` and the empty string are falsy. -/
def pyTruthyToken : Option JwtToken → Bool
  | none => false
  | some (.malformed raw) => raw != ""
  | some (.signed _ _ _) => true

/-- `app/auth.py` `get_current_user_optional(credentials, token, db)`: tries
JWT resolution when the token is truthy; every failure falls through (the
credentials branch is a `pass`) to `return None`. -/
def get_current_user_optional (now : Int) (credentials : Bool)
    (token : Option JwtToken) (db : UserDb) : Option UserRec :=
  if pyTruthyToken token then
    match verify_token now token with
    | some username =>
      if username != "" then
        match get_user db username with
        | some user => some user
        | none => none
      else none
    | none => none
  else none

/-- `app/auth.py` `get_current_active_user_optional`: the user only when one
is present and active; `None` otherwise. -/
def get_current_active_user_optional (current_user : Option UserRec) :
    Option UserRec :=
  match current_user with
  | some user => if user.is_active then some user else none
  | none => none

/-- A Python exception escaping the middleware (surfacing as a 500 from the
server, not as one of the gateway responses). -/
inductive PyError where
  | typeError (msg : String)
  deriving Repr, DecidableEq

/-- An attribute of the settings object that `APIKeyMiddleware` reads as a
list of strings. On the production `Settings` of `app/config.py`,
`api_keys` and `exclude_api_key_paths` are plain methods (not properties),
so attribute access yields a bound method object carrying the list the
method would return if it were called; the duck-typed settings used by the
middleware unit tests store a real list. -/
inductive PyStrListAttr where
  | list (xs : List String)
  | boundMethod (ret : List String)
  deriving Repr, DecidableEq

/-- Iterating or membership-testing the attribute (`for x in attr`,
`x in attr`): Python raises `TypeError` on a bound method. -/
def pyIterStrList : PyStrListAttr → Except PyError (List String)
  | .list xs => .ok xs
  | .boundMethod _ => .error (.typeError "argument of type method is not iterable")

/-- The settings fields consumed by `APIKeyMiddleware`. -/
structure MiddlewareSettings where
  enable_api_key_auth : Bool
  api_key_header : String
  api_keys : PyStrListAttr
  exclude_api_key_paths : PyStrListAttr
  debug : Bool
  deriving Repr, DecidableEq

/-- The production wiring of `setup_middleware(app)`: the `Settings` instance
of `app/config.py`, whose `api_keys` and `exclude_api_key_paths` attributes
are bound methods; `keys` and `excl` are the lists those methods would
return (the parsed comma-separated configuration values). -/
def productionGatewaySettings (enable debugFlag : Bool)
    (keys excl : List String) : MiddlewareSettings :=
  { enable_api_key_auth := enable
    api_key_header := "x-api-key"
    api_keys := .boundMethod keys
    exclude_api_key_paths := .boundMethod excl
    debug := debugFlag }

/-- A settings object whose list attributes are real lists, as the
middleware unit tests construct (`DummySettings`). -/
def listGatewaySettings (enable debugFlag : Bool)
    (keys excl : List String) : MiddlewareSettings :=
  { enable_api_key_auth := enable
    api_key_header := "x-api-key"
    api_keys := .list keys
    exclude_api_key_paths := .list excl
    debug := debugFlag }

/-- The parts of a Starlette request the middleware reads: URL path, headers
(first value per name), and the client host (`none` when no client is
attached to the request). -/
structure Request where
  path : String
  headers : List (String × String)
  client_host : Option String
  deriving Repr, DecidableEq

/-- `request.headers.get(name)`. -/
def headerGet (req : Request) (name : String) : Option String :=
  (req.headers.find? (fun p => p.1 == name)).map Prod.snd

/-- The fixed user-agent substrings of `_should_skip_api_key_check`. -/
def swagger_user_agents : List String :=
  ["swagger-ui", "swagger", "openapi", "fastapi", "mozilla/5.0"]

/-- `APIKeyMiddleware._should_skip_api_key_check`: excluded-path prefix,
documentation-tool or browser user-agent substring, docs referer, debug
flag, or loopback client; evaluated in source order. -/
def should_skip_api_key_check (s : MiddlewareSettings) (req : Request) :
    Except PyError Bool := do
  let excl ← pyIterStrList s.exclude_api_key_paths
  if excl.any (fun p => pyStartsWith req.path p) then
    return true
  let user_agent := pyLower ((headerGet req "user-agent").getD "")
  if swagger_user_agents.any (fun agent => pyInStr agent user_agent) then
    return true
  let referer := pyLower ((headerGet req "referer").getD "")
  if pyInStr "docs" referer || pyInStr "swagger" referer then
    return true
  if s.debug then
    return true
  match req.client_host with
  | some h => return (["127.0.0.1", "localhost", "::1"] : List String).contains h
  | none => return false

/-- `APIKeyMiddleware._validate_api_key`: membership in
`self.settings.api_keys`. -/
def validate_api_key (s : MiddlewareSettings) (api_key : String) :
    Except PyError Bool := do
  let ks ← pyIterStrList s.api_keys
  return ks.contains api_key

/-- Outcome of the gateway on one request: forward to the inner application,
or short-circuit with a response. -/
inductive GateOutcome where
  | passThrough
  | response (status : Nat) (content : String) (headers : List (String × String))
  deriving Repr, DecidableEq

/-- `APIKeyMiddleware.dispatch`: pass through when the feature flag is off or
a bypass condition holds; otherwise 401 on a missing or empty header value,
401 on an unconfigured key, pass through on a configured key. -/
def APIKeyMiddleware.dispatch (s : MiddlewareSettings) (req : Request) :
    Except PyError GateOutcome := do
  if s.enable_api_key_auth = false then
    return .passThrough
  let skip ← should_skip_api_key_check s req
  if skip then
    return .passThrough
  let api_key := headerGet req s.api_key_header
  match api_key with
  | none =>
    return .response 401 "API key required" [("WWW-Authenticate", "ApiKey")]
  | some k =>
    if k = "" then
      return .response 401 "API key required" [("WWW-Authenticate", "ApiKey")]
    else do
      let ok ← validate_api_key s k
      if ok = false then
        return .response 401 "Invalid API key" [("WWW-Authenticate", "ApiKey")]
      return .passThrough

/-- `read_items` / `read_public_items` envelope arithmetic:
`pages = (total + limit - 1) // limit` (Python floor division on
nonnegative ints is `Nat` division). -/
def paginate_pages (total limit : Nat) : Nat :=
  (total + limit - 1) / limit

/-- `read_items` / `read_public_items` envelope arithmetic:
`page = (skip // limit) + 1`. -/
def paginate_page (skip limit : Nat) : Nat :=
  skip / limit + 1

/-- Modelled from the spec: `app/models.py` is not present under `src/`; an
item row follows section 3 of the spec (title, optional description,
integer price, owning user reference) restricted to the fields the code
under `src/` reads and `app/schemas.py` declares. -/
structure ItemRec where
  id : Nat
  title : String
  description : Option String
  price : Int
  owner_id : Nat
  deriving Repr, DecidableEq

/-- One `field, value` entry of `item_update.dict(exclude_unset=True)`: an
explicitly provided field of the partial `ItemUpdate` payload. -/
inductive ItemFieldAssign where
  | title (v : String)
  | description (v : Option String)
  | price (v : Int)
  deriving Repr, DecidableEq

/-- `item_update.dict(exclude_unset=True).items()`: exactly the explicitly
provided fields, in iteration order. Fields absent from this list were not
sent by the client. -/
abbrev ItemUpdateData := List ItemFieldAssign

/-- `setattr(db_item, field, value)` for one entry of the update dict. -/
def setattrItem (it : ItemRec) : ItemFieldAssign → ItemRec
  | .title v => { it with title := v }
  | .description v => { it with description := v }
  | .price v => { it with price := v }

/-- The item table reachable through the request-scoped session. -/
abbrev ItemDb := List ItemRec

/-- `app/crud.py` `get_item_by_id`: first row whose id matches. -/
def get_item_by_id (db : ItemDb) (item_id : Nat) : Option ItemRec :=
  db.find? (fun it => it.id == item_id)

/-- In-place mutation of the row `get_item_by_id` found: replace the first
row with the given id. -/
def replaceFirstItem (item_id : Nat) (f : ItemRec → ItemRec) : ItemDb → ItemDb
  | [] => []
  | it :: rest =>
    if it.id = item_id then f it :: rest
    else it :: replaceFirstItem item_id f rest

/-- `db.delete(db_item)`: remove the first row with the given id. -/
def removeFirstItem (item_id : Nat) : ItemDb → ItemDb
  | [] => []
  | it :: rest =>
    if it.id = item_id then rest
    else it :: removeFirstItem item_id rest

/-- `app/crud.py` `update_item`: `None` leaving the table unchanged when the
item is missing; otherwise apply every provided field with `setattr` and
commit, returning the updated row and table. -/
def update_item (db : ItemDb) (item_id : Nat) (item_update : ItemUpdateData) :
    Option ItemRec × ItemDb :=
  match get_item_by_id db item_id with
  | none => (none, db)
  | some db_item =>
    let updated := item_update.foldl setattrItem db_item
    (some updated, replaceFirstItem item_id (fun _ => updated) db)

/-- `app/crud.py` `delete_item`: `False` leaving the table unchanged when the
item is missing; otherwise delete the row and report `True`. -/
def delete_item (db : ItemDb) (item_id : Nat) : Bool × ItemDb :=
  match get_item_by_id db item_id with
  | none => (false, db)
  | some _ => (true, removeFirstItem item_id db)

/-- `app/api/v1/endpoints/items.py` `update_existing_item`: 404 when the item
is missing, 403 when the caller does not own it (both before any mutation),
otherwise the result of `update_item` on the same session. -/
def update_existing_item (db : ItemDb) (item_id : Nat)
    (item_update : ItemUpdateData) (current_user_id : Nat) :
    Except HTTPError (Option ItemRec) × ItemDb :=
  match get_item_by_id db item_id with
  | none =>
    (.error { status_code := 404, detail := "Item not found", headers := none }, db)
  | some existing_item =>
    if existing_item.owner_id ≠ current_user_id then
      (.error { status_code := 403, detail := "Not enough permissions", headers := none }, db)
    else
      let r := update_item db item_id item_update
      (.ok r.1, r.2)

/-- `app/api/v1/endpoints/items.py` `delete_existing_item`: 404 when the item
is missing, 403 when the caller does not own it, 500 "Failed to delete item"
when `delete_item` reports failure, and 204 No Content (`ok ()`) on
success. -/
def delete_existing_item (db : ItemDb) (item_id : Nat)
    (current_user_id : Nat) : Except HTTPError Unit × ItemDb :=
  match get_item_by_id db item_id with
  | none =>
    (.error { status_code := 404, detail := "Item not found", headers := none }, db)
  | some existing_item =>
    if existing_item.owner_id ≠ current_user_id then
      (.error { status_code := 403, detail := "Not enough permissions", headers := none }, db)
    else
      let r := delete_item db item_id
      if r.1 = false then
        (.error { status_code := 500, detail := "Failed to delete item", headers := none }, r.2)
      else
        (.ok (), r.2)

/-- A gateway request meeting no bypass condition (bare programmatic user
agent, non-loopback client, no referer) that supplies a configured key. -/
def c1Request : Request :=
  { path := "/api/v1/items"
    headers := [("user-agent", "curl/8.4.0"), ("x-api-key", "valid-key")]
    client_host := some "203.0.113.7" }

/-- The gateway settings as wired in production: feature flag enabled, debug
off, the default excluded paths of `config.py`, one configured key. -/
def c1ProductionSettings : MiddlewareSettings :=
  productionGatewaySettings true false ["valid-key"]
    ["/docs", "/redoc", "/openapi.json", "/health", "/metrics", "/"]

/-- An inactive stored user whose password is "password". -/
def inactiveUser : UserRec :=
  { id := 1, username := "inactive", email := "inactive@example.com",
    hashed_password := .bcrypt "password" 0, is_active := false,
    is_superuser := false }

/-- An inactive stored user for the optional-resolution witness. -/
def optInactiveUser : UserRec :=
  { id := 2, username := "opt", email := "opt@example.com",
    hashed_password := .bcrypt "pw" 1, is_active := false,
    is_superuser := false }

/-- The item of the update witness: title "A", description "D", price 100,
owned by user 7. -/
def itemA : ItemRec :=
  { id := 1, title := "A", description := some "D", price := 100, owner_id := 7 }

/-- The item of the delete witness, owned by user 3. -/
def itemC : ItemRec :=
  { id := 2, title := "T", description := none, price := 5, owner_id := 3 }

/-- C1: with the API-key feature enabled and the production `Settings` of
`app/config.py` (whose `api_keys` and `exclude_api_key_paths` attributes are
plain bound methods, not lists), the gateway never reaches the documented
401/pass-through logic: `dispatch` raises `TypeError` while iterating
`settings.exclude_api_key_paths`, for a no-bypass request carrying a
configured key and even for a request to an excluded path. -/
theorem c1_gateway_production_wiring_raises_typeError :
    APIKeyMiddleware.dispatch c1ProductionSettings c1Request
      = Except.error (PyError.typeError "argument of type method is not iterable")
    ∧ APIKeyMiddleware.dispatch c1ProductionSettings { c1Request with path := "/docs" }
      = Except.error (PyError.typeError "argument of type method is not iterable") :=
  ⟨rfl, rfl⟩

/-- C4: a token issued over claims with subject `s` and the default TTL
verifies, immediately after issuance under the same secret and algorithm, to
exactly `s`. -/
theorem verify_create_access_token_roundtrip (now : Int) (s : String) :
    verify_token now
      (some (create_access_token now { sub := some s, exp := none } none)) = some s := by
  have hlt : ¬ (now + 60 * ((settings.access_token_expire_minutes : Nat) : Int) < now) := by
    simp [settings]
  simp [verify_token, create_access_token, jwt.encode, jwt.decode, hlt]

/-- C5: a stored user with a correct password authenticates through
`authenticate_user` even when inactive (the active flag is not consulted at
credential-check time), while `get_current_active_user` rejects that same
user with a 400 "Inactive user" error, a status distinct from 401. -/
theorem inactive_user_authenticates_but_fails_active (db : UserDb)
    (username p : String) (salt : Nat) (u : UserRec)
    (h1 : get_user db username = some u)
    (h2 : u.hashed_password = Digest.bcrypt p salt) :
    authenticate_user db username p = some u
    ∧ (u.is_active = false →
        get_current_active_user u
          = Except.error { status_code := 400, detail := "Inactive user", headers := none }
        ∧ (400 : Nat) ≠ 401) := by
  constructor
  · simp [authenticate_user, h1, verify_password, h2]
  · intro hia
    exact ⟨by simp [get_current_active_user, hia], by decide⟩

/-- C5 witness: the concrete inactive user authenticates with the correct
password and fails the active-only stage with status 400. -/
theorem inactive_user_authenticates_but_fails_active_witness :
    authenticate_user [inactiveUser] "inactive" "password" = some inactiveUser
    ∧ get_current_active_user inactiveUser
        = Except.error { status_code := 400, detail := "Inactive user", headers := none } := by
  have h := inactive_user_authenticates_but_fails_active [inactiveUser]
    "inactive" "password" 0 inactiveUser rfl rfl
  exact ⟨h.1, (h.2 rfl).1⟩

/-- C9: the optional identity resolvers never error. `get_current_user_optional`
returns `none` for an absent token, for any token `verify_token` rejects
(invalid or expired), and for a verified subject with no user record, under
any supplied bearer credentials; `get_current_active_user_optional` returns
the user exactly when one is present and active. -/
theorem optional_resolution_never_raises (now : Int) (credentials : Bool)
    (tok : Option JwtToken) (db : UserDb) (u : UserRec) :
    get_current_user_optional now credentials none db = none
    ∧ (verify_token now tok = none →
        get_current_user_optional now credentials tok db = none)
    ∧ (∀ s, verify_token now tok = some s → get_user db s = none →
        get_current_user_optional now credentials tok db = none)
    ∧ get_current_active_user_optional (some u)
        = (if u.is_active then some u else none)
    ∧ get_current_active_user_optional none = none
    ∧ (∀ r, get_current_active_user_optional r = some u
        ↔ (r = some u ∧ u.is_active = true)) := by
  refine ⟨rfl, ?_, ?_, rfl, rfl, ?_⟩
  · intro hv
    simp [get_current_user_optional, hv]
  · intro s hv hu
    simp [get_current_user_optional, hv, hu]
  · intro r
    cases r with
    | none => simp [get_current_active_user_optional]
    | some w =>
      by_cases h : w.is_active
      · simp only [get_current_active_user_optional, h, if_true]
        constructor
        · rintro he
          cases he
          exact ⟨rfl, h⟩
        · rintro ⟨he, _⟩
          exact he
      · simp only [get_current_active_user_optional, h, if_false]
        constructor
        · rintro he
          cases he
        · rintro ⟨he, ha⟩
          cases he
          exact absurd ha h

/-- C9 witness: a malformed token resolves to `none` rather than an error,
and an inactive user is filtered out by the optional active stage. -/
theorem optional_resolution_never_raises_witness :
    get_current_user_optional 0 true (some (JwtToken.malformed "zzz")) [] = none
    ∧ get_current_active_user_optional (some optInactiveUser) = none := by
  have h := optional_resolution_never_raises 0 true
    (some (JwtToken.malformed "zzz")) [] optInactiveUser
  refine ⟨h.2.1 rfl, ?_⟩
  have h4 := h.2.2.2.1
  simpa [optInactiveUser] using h4

/-- C10: whenever `get_item_by_id` finds the item and the ownership check
passes, `delete_item` on the same session and id returns `True` and the
handler answers 204 No Content: the 500 "Failed to delete item" branch is
unreachable in the sequential single-session model. -/
theorem delete_500_branch_unreachable (db : ItemDb) (item_id caller : Nat)
    (it : ItemRec) (h1 : get_item_by_id db item_id = some it)
    (h2 : it.owner_id = caller) :
    delete_existing_item db item_id caller = (Except.ok (), removeFirstItem item_id db)
    ∧ (delete_item db item_id).1 = true := by
  simp [delete_existing_item, delete_item, h1, h2]

/-- C10 witness: deleting the concrete owned item answers 204. -/
theorem delete_500_branch_unreachable_witness :
    delete_existing_item [itemC] 2 3 = (Except.ok (), removeFirstItem 2 [itemC])
    ∧ (delete_item [itemC] 2).1 = true :=
  delete_500_branch_unreachable [itemC] 2 3 itemC rfl rfl

/-- C2: `get_current_user` fails exactly when the token is absent, when
`verify_token` rejects it (syntactically invalid or expired), or when the
verified subject names no user record; and every failure raises the one
`credentials_exception` (same 401 status, same detail, same WWW-Authenticate
challenge header), so the caller cannot tell which step failed. -/
theorem get_current_user_unauthorized_exactly (now : Int)
    (token : Option JwtToken) (db : UserDb) :
    ((∃ e, get_current_user now token db = Except.error e)
      ↔ (token = none ∨ verify_token now token = none
          ∨ ∃ s, verify_token now token = some s ∧ get_user db s = none))
    ∧ (∀ e, get_current_user now token db = Except.error e →
        e = credentials_exception) := by
  cases htok : token with
  | none =>
    simp [get_current_user]
  | some t =>
    cases hv : verify_token now (some t) with
    | none =>
      simp [get_current_user, hv]
    | some s =>
      cases hu : get_user db s with
      | none =>
        constructor
        · simp [get_current_user, hv, hu]
        · intro e he
          simp [get_current_user, hv, hu] at he
          exact he.symm
      | some w =>
        constructor
        · simp [get_current_user, hv, hu]
        · intro e he
          simp [get_current_user, hv, hu] at he

/-- C2 witness: with no token the resolver fails with exactly
`credentials_exception`. -/
theorem get_current_user_unauthorized_exactly_witness :
    (∃ e, get_current_user 0 none [] = Except.error e)
    ∧ credentials_exception = credentials_exception := by
  constructor
  · exact (get_current_user_unauthorized_exactly 0 none []).1.mpr (Or.inl rfl)
  · exact congrArg id
      ((get_current_user_unauthorized_exactly 0 none []).2 credentials_exception rfl)

/-- C3: `verify_token` is a total function (failure is the value `none`,
never an exception) and returns `none` for a null token, an unparsable
token, a token signed with the wrong secret or algorithm, an expired token
(in particular any token issued with a negative TTL, checked at the issuing
instant), and a token whose payload has no subject claim; for a well-formed
unexpired token it returns the subject claim value. -/
theorem verify_token_absent_cases (now : Int) (raw : String) (c : JwtClaims)
    (s : String) (d : Int) :
    verify_token now none = none
    ∧ verify_token now (some (JwtToken.malformed raw)) = none
    ∧ (∀ sec alg, sec ≠ settings.secret_key ∨ alg ≠ settings.algorithm →
        verify_token now (some (JwtToken.signed sec alg c)) = none)
    ∧ (∀ e, c.exp = some e → e < now →
        verify_token now
          (some (JwtToken.signed settings.secret_key settings.algorithm c)) = none)
    ∧ (d < 0 →
        verify_token now
          (some (create_access_token now { sub := some s, exp := none } (some d))) = none)
    ∧ (c.sub = none →
        verify_token now
          (some (JwtToken.signed settings.secret_key settings.algorithm c)) = none)
    ∧ (∀ e sub, c.exp = some e → now ≤ e → c.sub = some sub →
        verify_token now
          (some (JwtToken.signed settings.secret_key settings.algorithm c)) = some sub) := by
  refine ⟨rfl, rfl, ?_, ?_, ?_, ?_, ?_⟩
  · rintro sec alg (h | h) <;>
      simp [verify_token, jwt.decode, h]
  · intro e he hlt
    simp [verify_token, jwt.decode, he, hlt]
  · intro hd
    have hlt : now + d < now := by omega
    simp [verify_token, create_access_token, jwt.encode, jwt.decode, hlt]
  · intro hsub
    cases he : c.exp with
    | none => simp [verify_token, jwt.decode, he, hsub]
    | some e =>
      by_cases hlt : e < now
      · simp [verify_token, jwt.decode, he, hlt]
      · simp [verify_token, jwt.decode, he, hlt, hsub]
  · intro e sub he hle hsub
    have hlt : ¬ (e < now) := by omega
    simp [verify_token, jwt.decode, he, hlt, hsub]

/-- C3 witness: a token issued with a negative TTL verifies to `none` at the
issuing instant, and a well-formed unexpired token verifies to its
subject. -/
theorem verify_token_absent_cases_witness :
    verify_token 0
      (some (create_access_token 0 { sub := some "alice", exp := none } (some (-600)))) = none
    ∧ verify_token 0
        (some (JwtToken.signed settings.secret_key settings.algorithm
          { sub := some "alice", exp := some 100 })) = some "alice" := by
  have h := verify_token_absent_cases 0 "x"
    { sub := some "alice", exp := some 100 } "alice" (-600)
  exact ⟨h.2.2.2.2.1 (by decide), h.2.2.2.2.2.2 100 "alice" rfl (by decide) rfl⟩

/-- Applying the update dict never touches the primary key. -/
theorem foldl_setattrItem_id (upd : ItemUpdateData) (it : ItemRec) :
    (upd.foldl setattrItem it).id = it.id := by
  induction upd generalizing it with
  | nil => rfl
  | cons a as ih => cases a <;> simp [List.foldl, setattrItem, ih]

/-- Applying the update dict never touches the owner reference. -/
theorem foldl_setattrItem_owner (upd : ItemUpdateData) (it : ItemRec) :
    (upd.foldl setattrItem it).owner_id = it.owner_id := by
  induction upd generalizing it with
  | nil => rfl
  | cons a as ih => cases a <;> simp [List.foldl, setattrItem, ih]

/-- A title never assigned by the update dict survives unchanged. -/
theorem foldl_setattrItem_title (upd : ItemUpdateData) (it : ItemRec)
    (h : ∀ v, ItemFieldAssign.title v ∉ upd) :
    (upd.foldl setattrItem it).title = it.title := by
  induction upd generalizing it with
  | nil => rfl
  | cons a as ih =>
    cases a with
    | title v => exact absurd (List.mem_cons_self _ _) (h v)
    | description v =>
      simpa [List.foldl, setattrItem]
        using ih { it with description := v } (fun v hv => h v (List.mem_cons_of_mem _ hv))
    | price v =>
      simpa [List.foldl, setattrItem]
        using ih { it with price := v } (fun v hv => h v (List.mem_cons_of_mem _ hv))

/-- A description never assigned by the update dict survives unchanged. -/
theorem foldl_setattrItem_description (upd : ItemUpdateData) (it : ItemRec)
    (h : ∀ v, ItemFieldAssign.description v ∉ upd) :
    (upd.foldl setattrItem it).description = it.description := by
  induction upd generalizing it with
  | nil => rfl
  | cons a as ih =>
    cases a with
    | description v => exact absurd (List.mem_cons_self _ _) (h v)
    | title v =>
      simpa [List.foldl, setattrItem]
        using ih { it with title := v } (fun v hv => h v (List.mem_cons_of_mem _ hv))
    | price v =>
      simpa [List.foldl, setattrItem]
        using ih { it with price := v } (fun v hv => h v (List.mem_cons_of_mem _ hv))

/-- A price never assigned by the update dict survives unchanged. -/
theorem foldl_setattrItem_price (upd : ItemUpdateData) (it : ItemRec)
    (h : ∀ v, ItemFieldAssign.price v ∉ upd) :
    (upd.foldl setattrItem it).price = it.price := by
  induction upd generalizing it with
  | nil => rfl
  | cons a as ih =>
    cases a with
    | price v => exact absurd (List.mem_cons_self _ _) (h v)
    | title v =>
      simpa [List.foldl, setattrItem]
        using ih { it with title := v } (fun v hv => h v (List.mem_cons_of_mem _ hv))
    | description v =>
      simpa [List.foldl, setattrItem]
        using ih { it with description := v } (fun v hv => h v (List.mem_cons_of_mem _ hv))

/-- Rows whose id differs from the updated one are still in the table after
the in-place replacement. -/
theorem mem_replaceFirstItem_of_ne (item_id : Nat) (f : ItemRec → ItemRec)
    (db : ItemDb) (x : ItemRec) (hx : x ∈ db) (hne : x.id ≠ item_id) :
    x ∈ replaceFirstItem item_id f db := by
  induction db with
  | nil => cases hx
  | cons it rest ih =>
    by_cases hit : it.id = item_id
    · simp only [replaceFirstItem, hit, if_true]
      rcases List.mem_cons.mp hx with rfl | hmem
      · exact absurd hit hne
      · exact List.mem_cons_of_mem _ hmem
    · simp only [replaceFirstItem, hit, if_false]
      rcases List.mem_cons.mp hx with rfl | hmem
      · exact List.mem_cons_self _ _
      · exact List.mem_cons_of_mem _ (ih hmem)

/-- C8: the item-update handler fails 404 when no item with the id exists and
403 when the caller is not the owner, leaving the store untouched in both
cases (the ownership check precedes any mutation); on success it applies
exactly the provided fields to the stored item, while the id, the owner
reference, every field absent from the payload, and every other row
survive unchanged. -/
theorem update_existing_item_semantics (db : ItemDb) (item_id caller : Nat)
    (upd : ItemUpdateData) (it : ItemRec) :
    (get_item_by_id db item_id = none →
      update_existing_item db item_id upd caller
        = (Except.error { status_code := 404, detail := "Item not found", headers := none }, db))
    ∧ (get_item_by_id db item_id = some it → it.owner_id ≠ caller →
      update_existing_item db item_id upd caller
        = (Except.error { status_code := 403, detail := "Not enough permissions", headers := none }, db))
    ∧ (get_item_by_id db item_id = some it → it.owner_id = caller →
        update_existing_item db item_id upd caller
          = (Except.ok (some (upd.foldl setattrItem it)),
              replaceFirstItem item_id (fun _ => upd.foldl setattrItem it) db)
        ∧ (upd.foldl setattrItem it).id = it.id
        ∧ (upd.foldl setattrItem it).owner_id = it.owner_id
        ∧ ((∀ v, ItemFieldAssign.title v ∉ upd) →
            (upd.foldl setattrItem it).title = it.title)
        ∧ ((∀ v, ItemFieldAssign.description v ∉ upd) →
            (upd.foldl setattrItem it).description = it.description)
        ∧ ((∀ v, ItemFieldAssign.price v ∉ upd) →
            (upd.foldl setattrItem it).price = it.price)
        ∧ (∀ x, x ∈ db → x.id ≠ item_id →
            x ∈ (update_existing_item db item_id upd caller).2)) := by
  refine ⟨?_, ?_, ?_⟩
  · intro h
    simp [update_existing_item, h]
  · intro h hown
    simp [update_existing_item, h, hown]
  · intro h hown
    refine ⟨by simp [update_existing_item, update_item, h, hown],
      foldl_setattrItem_id upd it, foldl_setattrItem_owner upd it,
      foldl_setattrItem_title upd it, foldl_setattrItem_description upd it,
      foldl_setattrItem_price upd it, ?_⟩
    intro x hx hne
    have : (update_existing_item db item_id upd caller).2
        = replaceFirstItem item_id (fun _ => upd.foldl setattrItem it) db := by
      simp [update_existing_item, update_item, h, hown]
    rw [this]
    exact mem_replaceFirstItem_of_ne item_id _ db x hx hne

/-- C8 witness: updating the concrete item with a title-only payload yields
the merged row, and the untouched description survives. -/
theorem update_existing_item_semantics_witness :
    update_existing_item [itemA] 1 [ItemFieldAssign.title "B"] 7
      = (Except.ok (some (List.foldl setattrItem itemA [ItemFieldAssign.title "B"])),
          replaceFirstItem 1
            (fun _ => List.foldl setattrItem itemA [ItemFieldAssign.title "B"]) [itemA])
    ∧ (List.foldl setattrItem itemA [ItemFieldAssign.title "B"]).description
        = itemA.description
    ∧ (List.foldl setattrItem itemA [ItemFieldAssign.title "B"]).price = itemA.price := by
  have h := (update_existing_item_semantics [itemA] 1 7
    [ItemFieldAssign.title "B"] itemA).2.2 rfl rfl
  refine ⟨h.1, ?_, ?_⟩
  · exact h.2.2.2.2.1 (by intro v hv; simp at hv)
  · exact h.2.2.2.2.2.1 (by intro v hv; simp at hv)

/-- The `(total + limit - 1) // limit` formula is the rational ceiling of
`total / limit` whenever the divisor is positive. -/
theorem add_pred_div_eq_ceil (t l : Nat) (hl : 1 ≤ l) :
    (t + l - 1) / l = ⌈(t : ℚ) / (l : ℚ)⌉₊ := by
  rcases Nat.eq_zero_or_pos t with rfl | ht
  · rw [Nat.div_eq_of_lt (by omega)]
    simp
  · have hlq : (0 : ℚ) < (l : ℚ) := by exact_mod_cast hl
    have hub : ((t + l - 1) / l) * l ≤ t + l - 1 := Nat.div_mul_le_self _ _
    have hlb : t ≤ ((t + l - 1) / l) * l := by
      have h := le_smul_ceilDiv (show 0 < l by omega) (b := t)
      rw [smul_eq_mul, Nat.ceilDiv_eq_add_pred_div, mul_comm] at h
      exact h
    have hd1 : 1 ≤ (t + l - 1) / l := by
      rw [Nat.one_le_div_iff (by omega)]
      omega
    symm
    rw [Nat.ceil_eq_iff (by omega)]
    constructor
    · rw [lt_div_iff₀ hlq]
      have hnat : ((t + l - 1) / l - 1) * l < t := by
        rw [Nat.sub_mul, one_mul]
        generalize hX : ((t + l - 1) / l) * l = X at hub hlb
        omega
      exact_mod_cast hnat
    · rw [div_le_iff₀ hlq]
      exact_mod_cast hlb

/-- C6 counterexample: the claim asserts that for every skip in range,
`total = 0` yields `page = 1`; at skip 10, limit 10, total 0 the handlers
compute `page = 2`. -/
theorem pagination_total_zero_page_counterexample :
    ¬ (∀ skip limit total : Nat, 1 ≤ limit → limit ≤ 1000 → total = 0 →
        paginate_pages total limit = 0 ∧ paginate_page skip limit = 1) := by
  intro h
  have := (h 10 10 0 (by decide) (by decide) rfl).2
  simp [paginate_page] at this

/-- C6 (amended): for skip at least zero, limit between 1 and 1000 and any
total, the envelope satisfies `pages = ceil(total / limit)` and
`page = floor(skip / limit) + 1`; for `total = 0` it yields `pages = 0`, and
additionally `page = 1` whenever `skip < limit` (as in the spec example
skip 0, limit 10). -/
theorem pagination_matches_ceil_floor (skip limit total : Nat)
    (h1 : 1 ≤ limit) (h2 : limit ≤ 1000) :
    paginate_pages total limit = ⌈(total : ℚ) / (limit : ℚ)⌉₊
    ∧ paginate_page skip limit = ⌊(skip : ℚ) / (limit : ℚ)⌋₊ + 1
    ∧ (total = 0 → paginate_pages total limit = 0)
    ∧ (total = 0 → skip < limit → paginate_page skip limit = 1) := by
  refine ⟨add_pred_div_eq_ceil total limit h1, ?_, ?_, ?_⟩
  · rw [paginate_page, Nat.floor_div_eq_div]
  · rintro rfl
    rw [paginate_pages, Nat.div_eq_of_lt (by omega)]
  · rintro rfl hsl
    rw [paginate_page, Nat.div_eq_of_lt hsl]

/-- C6 witness: the spec examples, through the amended theorem: skip 10,
limit 10, total 25 gives page 2 and pages 3; skip 0, limit 10, total 0
gives pages 0 and page 1. -/
theorem pagination_matches_ceil_floor_witness :
    paginate_pages 25 10 = ⌈((25 : Nat) : ℚ) / ((10 : Nat) : ℚ)⌉₊
    ∧ paginate_page 10 10 = ⌊((10 : Nat) : ℚ) / ((10 : Nat) : ℚ)⌋₊ + 1
    ∧ paginate_pages 0 10 = 0
    ∧ paginate_page 0 10 = 1 := by
  have ha := pagination_matches_ceil_floor 10 10 25 (by decide) (by decide)
  have hb := pagination_matches_ceil_floor 0 10 0 (by decide) (by decide)
  exact ⟨ha.1, ha.2.1, hb.2.2.1 rfl, hb.2.2.2 rfl (by decide)⟩
